import Mathlib

/-!
Shallow embedding of the Vidtube backend (Express + Mongoose controllers).

Conventions of the embedding:
* Mongo ObjectIds are `Nat`; `toString` comparison of two ObjectIds is `Nat` equality.
* A request parameter that should hold an ObjectId is a `Param`: `missing` is a
  falsy/absent value, `malformed` is a present string rejected by
  `mongoose.Types.ObjectId.isValid`, `valid n` is a well-formed id.
* Each Mongo collection is a `List` of documents in natural order; `findOne` /
  `findOneAndDelete` operate on the first match, `findByIdAndDelete` is
  `List.eraseP` on the id, `document.save()` replaces the document with the
  same `_id` in place.
* A handler is a function of the request pieces it reads and of the database
  `DB`; it returns the database as left by the handler together with
  `Except ApiErr` of the sent (status, payload).  A thrown `ApiError` is
  `Except.error`.
* Calls to the Cloudinary SDK are abstracted by a function argument
  `gw : String → Option _` (the outcome of the upstream call for a public id /
  local path); a caught SDK exception is `none`.
-/

/-- Mongo ObjectId request parameter after JS truthiness and
`mongoose.Types.ObjectId.isValid` classification. -/
inductive Param where
  | missing : Param
  | malformed : Param
  | valid : Nat → Param
deriving DecidableEq

/-- The ApiError utility: an HTTP status code plus a message. -/
structure ApiErr where
  statusCode : Nat
  message : String
deriving DecidableEq

/-- Successful Cloudinary upload response (the fields the controllers read). -/
structure UploadResult where
  url : String
  public_id : String
deriving DecidableEq

/-- One call made to the Cloudinary destroy endpoint: which public id and
which resource_type option was passed. -/
structure CloudCall where
  publicId : String
  resourceType : String
deriving DecidableEq

/-- Video document (video.model.js). -/
structure Video where
  _id : Nat
  videoFile : String
  videoPublicId : String
  thumbnail : String
  thumbnailPublicId : String
  title : String
  description : String
  duration : Nat
  views : Nat
  isPublished : Bool
  likes : List Nat
  comments : List Nat
  owner : Nat
  createdAt : Nat
deriving DecidableEq

/-- Comment document. -/
structure Comment where
  _id : Nat
  content : String
  video : Nat
  owner : Nat
  likes : List Nat
deriving DecidableEq

/-- Tweet document. -/
structure Tweet where
  _id : Nat
  content : String
  owner : Nat
  replyTo : Option Nat
  createdAt : Nat
deriving DecidableEq

/-- Like document: likedBy plus at most one of video/comment/tweet. -/
structure LikeDoc where
  _id : Nat
  likedBy : Nat
  video : Option Nat
  comment : Option Nat
  tweet : Option Nat
deriving DecidableEq

/-- Playlist document. -/
structure Playlist where
  _id : Nat
  name : String
  description : String
  owner : Nat
  videos : List Nat
deriving DecidableEq

/-- Subscription document. -/
structure Subscription where
  _id : Nat
  subscriber : Nat
  channel : Nat
deriving DecidableEq

/-- User document (the public fields the embedded controllers read). -/
structure User where
  _id : Nat
  username : String
  fullName : String
  avatar : String
deriving DecidableEq

/-- The whole database: one list per collection, plus a fresh-id counter used
for newly created documents. -/
structure DB where
  users : List User
  videos : List Video
  comments : List Comment
  tweets : List Tweet
  likes : List LikeDoc
  playlists : List Playlist
  subscriptions : List Subscription
  nextId : Nat
deriving DecidableEq

deriving instance DecidableEq for Except

/-- JS truthiness of an optional string (undefined and the empty string are
falsy). -/
def truthyS : Option String → Bool
  | none => false
  | some s => s ≠ ""

/-- JS truthiness of an optional number (undefined and 0 are falsy). -/
def truthyN : Option Nat → Bool
  | none => false
  | some n => n ≠ 0

/-- Whitespace characters removed by JS String.prototype.trim (the ones that
can matter here). -/
def isJsSpace (c : Char) : Bool :=
  c == ' ' || c == '\t' || c == '\n' || c == '\r'

/-- JS String.prototype.trim, written over the character list so that it is
kernel-computable. -/
def jsTrim (s : String) : String :=
  String.mk (((s.data.dropWhile isJsSpace).reverse.dropWhile isJsSpace).reverse)

/-- Truthiness of `opt?.trim()` as used by updateVideo. -/
def truthyTrim (o : Option String) : Bool :=
  match o with
  | none => false
  | some s => jsTrim s ≠ ""

/-- Case-insensitive substring test, modelling the `$regex`/`$options: "i"`
match on a plain (regex-metacharacter-free) query string. -/
def containsCI (hay needle : String) : Bool :=
  ((hay.toLower.splitOn needle.toLower).length > 1)

/-- Stable insertion into a sorted list, used to model the Mongo `$sort`
stage. -/
def insertSorted (le : α → α → Bool) (a : α) : List α → List α
  | [] => [a]
  | b :: bs => if le a b then a :: b :: bs else b :: insertSorted le a bs

/-- Stable sort (insertion sort) used to model the Mongo `$sort` stage. -/
def sortList (le : α → α → Bool) : List α → List α
  | [] => []
  | a :: as => insertSorted le a (sortList le as)

/-- The numeric sort key for the dynamic `[sortBy]` field of getAllVideos;
non-numeric fields are collapsed to a constant key in this embedding. -/
def sortFieldKey (f : String) (v : Video) : Nat :=
  if f = "views" then v.views
  else if f = "duration" then v.duration
  else if f = "createdAt" then v.createdAt
  else 0

/-- `video.save()`: write the (possibly mutated) document back over the stored
document with the same `_id`. -/
def saveVideo (db : DB) (v : Video) : DB :=
  { db with videos := db.videos.map (fun x => if x._id == v._id then v else x) }

/-- `comment.save()`. -/
def saveComment (db : DB) (c : Comment) : DB :=
  { db with comments := db.comments.map (fun x => if x._id == c._id then c else x) }

/-- The Like documents whose `video` field references the given video
(the authoritative likes of that video). -/
def likeDocsFor (db : DB) (vid : Nat) : List LikeDoc :=
  db.likes.filter (fun d => d.video == some vid)

/-- The Subscription documents for one (subscriber, channel) pair. -/
def subsFor (db : DB) (uid cid : Nat) : List Subscription :=
  db.subscriptions.filter (fun s => s.subscriber == uid && s.channel == cid)

/-- Owner public profile fields selected by the `$lookup`/populate steps. -/
structure UserCard where
  fullName : String
  username : String
  avatar : String
deriving DecidableEq

/-- Projection of a User to its public card. -/
def toUserCard (u : User) : UserCard :=
  ⟨u.fullName, u.username, u.avatar⟩

/- ------------------------------------------------------------------ -/
/- cloudinary.js                                                      -/
/- ------------------------------------------------------------------ -/

/-- uploadOnCloudinary: `upload` is the outcome of the SDK upload for a local
path (`none` = the SDK threw), `fs` is the set of local temporary files.
Returns the value returned to the caller and the remaining local files. -/
def uploadOnCloudinary (upload : String → Option UploadResult)
    (localFilePath : Option String) (fs : List String) :
    Option UploadResult × List String :=
  match localFilePath with
  | none => (none, fs)
  | some p =>
    if p == "" then (none, fs)
    else
      match upload p with
      | some r => (some r, fs.erase p)
      | none => (none, fs.erase p)

/-- deleteFromCloudinary: destroy with resource_type "video"; returns the SDK
outcome (`none` both for a falsy publicId and for a caught SDK error) and the
upstream calls made. -/
def deleteFromCloudinary (gw : String → Option Unit) (publicId : String) :
    Option Unit × List CloudCall :=
  if publicId == "" then (none, [])
  else (gw publicId, [⟨publicId, "video"⟩])

/-- deleteImageFromCloudinary: destroy with resource_type "image". -/
def deleteImageFromCloudinary (gw : String → Option Unit) (publicId : String) :
    Option Unit × List CloudCall :=
  if publicId == "" then (none, [])
  else (gw publicId, [⟨publicId, "image"⟩])

/- ------------------------------------------------------------------ -/
/- video.controller.js                                                -/
/- ------------------------------------------------------------------ -/

/-- Projection emitted by the `$project` stage of getAllVideos: listing-card
fields plus the flattened owner card (absent when the owner user is gone). -/
structure VideoCard where
  title : String
  description : String
  thumbnail : String
  videoFile : String
  duration : Nat
  createdAt : Nat
  owner : Option UserCard
deriving DecidableEq

/-- Project a Video to its listing card, joining the owner profile. -/
def toVideoCard (db : DB) (v : Video) : VideoCard :=
  ⟨v.title, v.description, v.thumbnail, v.videoFile, v.duration, v.createdAt,
    (db.users.find? (fun u => u._id == v.owner)).map toUserCard⟩

/-- The object returned by Video.aggregatePaginate with the custom label
docs → videos. -/
structure PageResult where
  videos : List VideoCard
  totalDocs : Nat
  limit : Nat
  page : Nat
  totalPages : Nat
deriving DecidableEq

/-- One response sent by getAllVideos: either the stray
`res.status(300).json({message: []})` of the empty branch, or the normal
`res.status(200).json(new ApiResponse(...))`. -/
inductive GAVSend where
  | emptyMsg : GAVSend
  | success : PageResult → GAVSend
deriving DecidableEq

/-- The HTTP status carried by a getAllVideos send. -/
def GAVSend.status : GAVSend → Nat
  | .emptyMsg => 300
  | .success _ => 200

/-- getAllVideos: builds the aggregation pipeline (query filter, owner filter,
sort, owner join, projection), paginates, then runs the response logic.  The
returned list is every response the handler attempts to send, in order; the
client receives the first one. -/
def getAllVideos (page limit : Nat) (query : Option String)
    (sortBy sortType : String) (userIdP : Param) (db : DB) :
    Except ApiErr (List GAVSend) :=
  let p1 := match query with
    | some q => if q == "" then db.videos
        else db.videos.filter (fun v => containsCI v.title q || containsCI v.description q)
    | none => db.videos
  match userIdP with
  | .malformed => .error ⟨400, "Invalid user ID"⟩
  | _ =>
    let p2 := match userIdP with
      | .valid uid => p1.filter (fun v => v.owner == uid)
      | _ => p1
    let key := sortFieldKey sortBy
    let sorted := if sortType = "asc"
      then sortList (fun a b => decide (key a ≤ key b)) p2
      else sortList (fun a b => decide (key b ≤ key a)) p2
    let cards := sorted.map (toVideoCard db)
    let items := (cards.drop ((page - 1) * limit)).take limit
    let total := cards.length
    let pr : PageResult := ⟨items, total, limit, page, (total + limit - 1) / limit⟩
    .ok ((if items.length == 0 then [GAVSend.emptyMsg] else []) ++ [GAVSend.success pr])

/-- Modelled from the spec: the HTTP status that the error-translation layer
(not under src/) assigns to a Mongoose schema validation failure; spec section
7 surfaces length-bound violations as 400. -/
def validationErrorStatus : Nat := 400

/-- The videoSchema write-time validators: required string fields reject the
empty string, title must be 3 to 100 characters, description 10 to 5000. -/
def videoSchemaValid (v : Video) : Bool :=
  v.videoFile != "" && v.videoPublicId != "" && v.thumbnail != "" &&
  v.thumbnailPublicId != "" &&
  decide (3 ≤ v.title.length) && decide (v.title.length ≤ 100) &&
  decide (10 ≤ v.description.length) && decide (v.description.length ≤ 5000)

/-- publishAVideo: presence validation, file checks, two uploads, then
Video.create (which runs the schema validators before storing). -/
def publishAVideo (upload : String → Option UploadResult) (uid : Nat)
    (title? description? : Option String) (duration? : Option Nat)
    (videoFile? thumbFile? : Option String) (db : DB) :
    DB × Except ApiErr (Nat × Video) :=
  if !(truthyS title?) || !(truthyS description?) || !(truthyN duration?) then
    (db, .error ⟨400, "Title, description, and duration are required"⟩)
  else match videoFile? with
  | none => (db, .error ⟨400, "Video file is required"⟩)
  | some vpath =>
    match thumbFile? with
    | none => (db, .error ⟨400, "Thumbnail file is required"⟩)
    | some tpath =>
      match upload vpath, upload tpath with
      | some vres, some tres =>
        let newV : Video :=
          { _id := db.nextId, videoFile := vres.url, videoPublicId := vres.public_id,
            thumbnail := tres.url, thumbnailPublicId := tres.public_id,
            title := title?.getD "", description := description?.getD "",
            duration := duration?.getD 0, views := 0, isPublished := true,
            likes := [], comments := [], owner := uid, createdAt := 0 }
        if videoSchemaValid newV then
          ({ db with videos := db.videos ++ [newV], nextId := db.nextId + 1 },
            .ok (201, newV))
        else (db, .error ⟨validationErrorStatus, "Video validation failed"⟩)
      | _, _ => (db, .error ⟨500, "Error uploading files to Cloudinary"⟩)

/-- getVideoById: validate, find, populate the owner card. -/
def getVideoById (videoIdP : Param) (db : DB) :
    Except ApiErr (Nat × Video × Option UserCard) :=
  match videoIdP with
  | .missing => .error ⟨400, "Video ID is required"⟩
  | .malformed => .error ⟨400, "Invalid Video ID format"⟩
  | .valid vid =>
    match db.videos.find? (fun v => v._id == vid) with
    | none => .error ⟨404, "Video not found"⟩
    | some video =>
      .ok (200, video, (db.users.find? (fun u => u._id == video.owner)).map toUserCard)

/-- updateVideo: validate the id, find the video, apply trimmed title and
description edits, optionally upload a replacement thumbnail, then save.
Note: the source performs no ownership check here; `uid` (req.user._id) is
available but never consulted. -/
def updateVideo (upload : String → Option UploadResult) (uid : Nat)
    (videoIdP : Param) (title? description? : Option String)
    (reqFile? : Option String) (db : DB) : DB × Except ApiErr (Nat × Video) :=
  match videoIdP with
  | .missing => (db, .error ⟨400, "Video ID is required"⟩)
  | .malformed => (db, .error ⟨400, "Invalid Video ID format"⟩)
  | .valid vid =>
    match db.videos.find? (fun v => v._id == vid) with
    | none => (db, .error ⟨404, "Video not found"⟩)
    | some video =>
      let video := if truthyTrim title?
        then { video with title := jsTrim (title?.getD "") } else video
      let video := if truthyTrim description?
        then { video with description := jsTrim (description?.getD "") } else video
      match reqFile? with
      | some path =>
        match upload path with
        | some up =>
          if up.url == "" then (db, .error ⟨400, "Failed to upload thumbnail"⟩)
          else
            let video := { video with thumbnail := up.url }
            (saveVideo db video, .ok (200, video))
        | none => (db, .error ⟨400, "Failed to upload thumbnail"⟩)
      | none => (saveVideo db video, .ok (200, video))

/-- One guarded asset deletion inside deleteVideo: skipped for a falsy public
id, otherwise a deleteFromCloudinary call whose `none` outcome makes the
handler abort. -/
def deleteAssetStep (gw : String → Option Unit) (publicId : String) :
    Bool × List CloudCall :=
  if publicId == "" then (true, [])
  else
    match deleteFromCloudinary gw publicId with
    | (none, cs) => (false, cs)
    | (some _, cs) => (true, cs)

/-- deleteVideo: validate, find, ownership check, delete the video asset then
the thumbnail asset upstream (both through deleteFromCloudinary, resource_type
"video"), and only then delete the document.  Also returns the upstream calls
made. -/
def deleteVideo (gw : String → Option Unit) (uid : Nat) (videoIdP : Param)
    (db : DB) : DB × List CloudCall × Except ApiErr (Nat × Unit) :=
  match videoIdP with
  | .missing => (db, [], .error ⟨400, "Video ID is required"⟩)
  | .malformed => (db, [], .error ⟨400, "Invalid Video ID format"⟩)
  | .valid vid =>
    match db.videos.find? (fun v => v._id == vid) with
    | none => (db, [], .error ⟨404, "Video not found"⟩)
    | some video =>
      if !(uid == video.owner) then
        (db, [], .error ⟨403, "You are not authorized to delete this video"⟩)
      else
        match deleteAssetStep gw video.videoPublicId with
        | (false, c1) => (db, c1, .error ⟨500, "Failed to delete video from Cloudinary"⟩)
        | (true, c1) =>
          match deleteAssetStep gw video.thumbnailPublicId with
          | (false, c2) =>
            (db, c1 ++ c2, .error ⟨500, "Failed to delete thumbnail from Cloudinary"⟩)
          | (true, c2) =>
            ({ db with videos := db.videos.eraseP (fun v => v._id == vid) },
              c1 ++ c2, .ok (200, ()))

/- ------------------------------------------------------------------ -/
/- comment.controller.js                                              -/
/- ------------------------------------------------------------------ -/

/-- updateComment: joint validation of content and comment id, find, ownership
check, then overwrite the content and save. -/
def updateComment (uid : Nat) (commentIdP : Param) (content? : Option String)
    (db : DB) : DB × Except ApiErr (Nat × Comment) :=
  match commentIdP, content? with
  | .valid cid, some content =>
    if content == "" then
      (db, .error ⟨400, "Content and a valid comment ID are required"⟩)
    else
      match db.comments.find? (fun c => c._id == cid) with
      | none => (db, .error ⟨404, "Comment not found"⟩)
      | some comment =>
        if !(comment.owner == uid) then
          (db, .error ⟨403, "You are not authorized to update this comment"⟩)
        else
          let comment := { comment with content := content }
          (saveComment db comment, .ok (200, comment))
  | _, _ => (db, .error ⟨400, "Content and a valid comment ID are required"⟩)

/-- deleteComment: validate, find, ownership check, delete the comment, then
pull its id from the owning video's comments array. -/
def deleteComment (uid : Nat) (commentIdP : Param) (db : DB) :
    DB × Except ApiErr (Nat × Unit) :=
  match commentIdP with
  | .valid cid =>
    match db.comments.find? (fun c => c._id == cid) with
    | none => (db, .error ⟨404, "Comment not found"⟩)
    | some comment =>
      if !(comment.owner == uid) then
        (db, .error ⟨403, "You are not authorized to delete this comment"⟩)
      else
        let db1 := { db with comments := db.comments.eraseP (fun c => c._id == cid) }
        let db2 := { db1 with videos := db1.videos.map (fun v =>
          if v._id == comment.video
          then { v with comments := v.comments.filter (fun c => c != cid) }
          else v) }
        (db2, .ok (200, ()))
  | _ => (db, .error ⟨400, "Invalid comment ID"⟩)

/- ------------------------------------------------------------------ -/
/- tweet.controller.js                                                -/
/- ------------------------------------------------------------------ -/

/-- getUserTweets: validate the user id, fetch that user's tweets newest
first, 404 when there are none. -/
def getUserTweets (userIdP : Param) (db : DB) :
    Except ApiErr (Nat × List Tweet) :=
  match userIdP with
  | .valid uid =>
    let tweets := sortList (fun a b => decide (b.createdAt ≤ a.createdAt))
      (db.tweets.filter (fun t => t.owner == uid))
    if tweets.length == 0 then .error ⟨404, "No tweets found for this user"⟩
    else .ok (200, tweets)
  | _ => .error ⟨400, "Invalid user ID"⟩

/-- updateTweet: the handler body is only a TODO comment — it reads nothing,
writes nothing and sends no response. -/
def updateTweet (tweetIdP : Param) (content? : Option String) (db : DB) :
    DB × Option Unit :=
  (db, none)

/-- deleteTweet: validate, find, ownership check, delete. -/
def deleteTweet (uid : Nat) (tweetIdP : Param) (db : DB) :
    DB × Except ApiErr (Nat × Unit) :=
  match tweetIdP with
  | .valid tid =>
    match db.tweets.find? (fun t => t._id == tid) with
    | none => (db, .error ⟨404, "Tweet not found"⟩)
    | some tweet =>
      if !(tweet.owner == uid) then
        (db, .error ⟨403, "You are not authorized to delete this tweet"⟩)
      else
        ({ db with tweets := db.tweets.eraseP (fun t => t._id == tid) }, .ok (200, ()))
  | _ => (db, .error ⟨400, "Invalid tweet ID"⟩)

/- ------------------------------------------------------------------ -/
/- like.controller.js                                                 -/
/- ------------------------------------------------------------------ -/

/-- The body of the toggleVideoLike success response. -/
structure ToggleLikeRes where
  videoId : Nat
  likesCount : Nat
  userLiked : Bool
deriving DecidableEq

/-- toggleVideoLike: validate, find the video, flip membership of the user in
the denormalized likes array while deleting/creating the authoritative Like
document, save the video, and report the Like-document count. -/
def toggleVideoLike (uid : Nat) (videoIdP : Param) (db : DB) :
    DB × Except ApiErr (Nat × ToggleLikeRes) :=
  match videoIdP with
  | .valid vid =>
    match db.videos.find? (fun v => v._id == vid) with
    | none => (db, .error ⟨404, "Video not found"⟩)
    | some video =>
      let alreadyLiked := video.likes.contains uid
      let video1 := if alreadyLiked
        then { video with likes := video.likes.filter (fun w => w != uid) }
        else { video with likes := video.likes ++ [uid] }
      let db1 := if alreadyLiked
        then { db with likes :=
          db.likes.eraseP (fun d => d.likedBy == uid && d.video == some vid) }
        else { db with likes := db.likes ++ [⟨db.nextId, uid, some vid, none, none⟩],
                       nextId := db.nextId + 1 }
      let db2 := saveVideo db1 video1
      (db2, .ok (200, ⟨vid, (likeDocsFor db2 vid).length, !alreadyLiked⟩))
  | _ => (db, .error ⟨400, "Invalid video ID"⟩)

/-- getLikedVideos: all videos whose denormalized likes array holds the
current user; an empty result is a 200 with an empty list. -/
def getLikedVideos (uid : Nat) (db : DB) :
    Except ApiErr (Nat × List Video × String) :=
  let likedVideos := db.videos.filter (fun v => v.likes.contains uid)
  if likedVideos.length == 0 then .ok (200, [], "No liked videos found")
  else .ok (200, likedVideos, "Liked videos fetched successfully")

/- ------------------------------------------------------------------ -/
/- subscription.controller.js                                         -/
/- ------------------------------------------------------------------ -/

/-- toggleSubscription: validate the channel, look the (subscriber, channel)
subscription up, delete it when present (by its _id), create one otherwise. -/
def toggleSubscription (uid : Nat) (channelIdP : Param) (db : DB) :
    DB × Except ApiErr (Nat × Option Subscription) :=
  match channelIdP with
  | .valid cid =>
    match db.users.find? (fun u => u._id == cid) with
    | none => (db, .error ⟨404, "Channel not found"⟩)
    | some _ =>
      match db.subscriptions.find? (fun s => s.subscriber == uid && s.channel == cid) with
      | some existing =>
        ({ db with subscriptions :=
            db.subscriptions.eraseP (fun s => s._id == existing._id) },
          .ok (200, none))
      | none =>
        let newSub : Subscription := ⟨db.nextId, uid, cid⟩
        ({ db with subscriptions := db.subscriptions ++ [newSub],
                   nextId := db.nextId + 1 },
          .ok (201, some newSub))
  | _ => (db, .error ⟨400, "Invalid channel ID"⟩)

/- ------------------------------------------------------------------ -/
/- playlist.controller.js / dashboard.controller.js                   -/
/- ------------------------------------------------------------------ -/

/-- getUserPlaylists: the current user's playlists; an empty result is a 200
with an empty list and the "No playlists found" message. -/
def getUserPlaylists (userIdP : Param) (db : DB) :
    Except ApiErr (Nat × List Playlist × String) :=
  match userIdP with
  | .valid uid =>
    let playlists := db.playlists.filter (fun p => p.owner == uid)
    if playlists.length == 0 then .ok (200, [], "No playlists found")
    else .ok (200, playlists, "Playlists fetched successfully")
  | _ => .error ⟨400, "Invalid user ID"⟩

/-- getChannelVideos (dashboard): validate the channel, require it to exist,
list its videos newest first; an empty result is a 200 with an empty list. -/
def getChannelVideos (channelIdP : Param) (db : DB) :
    Except ApiErr (Nat × List Video × String) :=
  match channelIdP with
  | .valid cid =>
    match db.users.find? (fun u => u._id == cid) with
    | none => .error ⟨404, "Channel not found"⟩
    | some _ =>
      let videos := sortList (fun a b => decide (b.createdAt ≤ a.createdAt))
        (db.videos.filter (fun v => v.owner == cid))
      if videos.length == 0 then .ok (200, [], "No videos found for this channel")
      else .ok (200, videos, "Channel videos fetched successfully")
  | _ => .error ⟨400, "Invalid channel ID"⟩

/- ------------------------------------------------------------------ -/
/- helper lemmas                                                      -/
/- ------------------------------------------------------------------ -/

theorem list_contains_iff {l : List Nat} {a : Nat} : l.contains a = true ↔ a ∈ l := by
  unfold List.contains
  exact List.elem_iff

theorem filter_bne_eq_self {l : List Nat} {a : Nat} (h : a ∉ l) :
    l.filter (fun w => w != a) = l :=
  List.filter_eq_self.mpr (fun b hb => by
    have hba : b ≠ a := fun e => h (e ▸ hb)
    simpa using hba)

theorem not_mem_filter_bne (l : List Nat) (a : Nat) :
    a ∉ l.filter (fun w => w != a) := by
  intro h
  rcases List.mem_filter.mp h with ⟨-, hb⟩
  simp at hb

theorem cons_filter_bne_perm {l : List Nat} {a : Nat} (hn : l.Nodup) (ha : a ∈ l) :
    (a :: l.filter (fun w => w != a)).Perm l := by
  induction l with
  | nil => cases ha
  | cons x xs ih =>
    rcases List.nodup_cons.mp hn with ⟨hx, hxs⟩
    by_cases hax : x = a
    · subst hax
      have h1 : (x :: xs).filter (fun w => w != x) = xs.filter (fun w => w != x) := by
        simp
      rw [h1, filter_bne_eq_self hx]
    · have hax' : (x != a) = true := by simpa using hax
      have ha' : a ∈ xs := by
        rcases List.mem_cons.mp ha with h | h
        · exact absurd h.symm hax
        · exact h
      have h1 : (x :: xs).filter (fun w => w != a) = x :: xs.filter (fun w => w != a) := by
        simp [List.filter_cons, hax']
      rw [h1]
      exact (List.Perm.swap x a _).trans ((ih hxs ha').cons x)

theorem find?_map_if {α : Type} (p : α → Bool) (v1 : α) (h1 : p v1 = true) :
    ∀ (l : List α) (a : α), l.find? p = some a →
      (l.map (fun x => if p x then v1 else x)).find? p = some v1 := by
  intro l
  induction l with
  | nil => intro a h; cases h
  | cons x xs ih =>
    intro a h
    by_cases hx : p x = true
    · simp [hx, h1, List.find?_cons_of_pos]
    · rw [List.find?_cons_of_neg _ hx] at h
      rw [List.map_cons, if_neg hx, List.find?_cons_of_neg _ hx]
      exact ih a h

/- ------------------------------------------------------------------ -/
/- C8                                                                 -/
/- ------------------------------------------------------------------ -/

/-- C8: updateTweet is a stub — for every request and database state it leaves
the database exactly as it was and sends no response. -/
theorem updateTweet_is_noop :
    ∀ (p : Param) (c : Option String) (db : DB), updateTweet p c db = (db, none) :=
  fun _ _ _ => rfl

/- ------------------------------------------------------------------ -/
/- C7                                                                 -/
/- ------------------------------------------------------------------ -/

/-- C7: for every truthy local file path, uploadOnCloudinary removes the local
temporary file whether the upload succeeds or fails, and reports an upload
failure by returning no result rather than raising. -/
theorem uploadOnCloudinary_removes_tmp :
    ∀ (upload : String → Option UploadResult) (p : String) (fs : List String),
      p ≠ "" →
      (uploadOnCloudinary upload (some p) fs).2 = fs.erase p ∧
      (upload p = none → (uploadOnCloudinary upload (some p) fs).1 = none) ∧
      (∀ r, upload p = some r → (uploadOnCloudinary upload (some p) fs).1 = some r) := by
  intro upload p fs hp
  have hpb : (p == "") = false := by simpa using hp
  cases hu : upload p <;>
    simp [uploadOnCloudinary, hpb, hu]

/-- Witness for C7 at a concrete failing upload. -/
theorem uploadOnCloudinary_removes_tmp_witness :
    ("tmp-file" : String) ≠ "" ∧
    ((uploadOnCloudinary (fun _ => none) (some "tmp-file") ["tmp-file"]).2 =
        (["tmp-file"] : List String).erase "tmp-file" ∧
      ((fun _ : String => (none : Option UploadResult)) "tmp-file" = none →
        (uploadOnCloudinary (fun _ => none) (some "tmp-file") ["tmp-file"]).1 = none) ∧
      (∀ r, (fun _ : String => (none : Option UploadResult)) "tmp-file" = some r →
        (uploadOnCloudinary (fun _ => none) (some "tmp-file") ["tmp-file"]).1 = some r)) :=
  ⟨by decide, uploadOnCloudinary_removes_tmp (fun _ => none) "tmp-file" ["tmp-file"] (by decide)⟩

/- ------------------------------------------------------------------ -/
/- C4                                                                 -/
/- ------------------------------------------------------------------ -/

/-- A database with every collection empty. -/
def emptyDB : DB := ⟨[], [], [], [], [], [], [], 0⟩

/-- C4 (code defect evidence): against an empty database with default listing
parameters, getAllVideos first sends the stray status-300 response of the
empty branch and only afterwards attempts the normal 200 response; the first
response the client receives is therefore not a 200. -/
theorem getAllVideos_empty_sends_300 :
    getAllVideos 1 10 none "createdAt" "desc" .missing emptyDB =
      .ok [GAVSend.emptyMsg, GAVSend.success ⟨[], 0, 10, 1, 0⟩] ∧
    GAVSend.emptyMsg.status = 300 ∧ GAVSend.emptyMsg.status ≠ 200 := by
  refine ⟨rfl, rfl, by decide⟩

/- ------------------------------------------------------------------ -/
/- C1                                                                 -/
/- ------------------------------------------------------------------ -/

/-- C1 (amended): for updateComment, deleteComment, deleteTweet and
deleteVideo, a requester whose id differs from the target document's owner id
receives a 403 error and the database — hence the document — is left exactly
as it was.  (updateVideo is excluded: it performs no ownership check, see the
counterexample.) -/
theorem owner_mismatch_403 :
    ∀ (db : DB) (uid : Nat),
      (∀ (cid : Nat) (content : String) (c : Comment), content ≠ "" →
        db.comments.find? (fun x => x._id == cid) = some c → c.owner ≠ uid →
        updateComment uid (.valid cid) (some content) db =
          (db, .error ⟨403, "You are not authorized to update this comment"⟩)) ∧
      (∀ (cid : Nat) (c : Comment),
        db.comments.find? (fun x => x._id == cid) = some c → c.owner ≠ uid →
        deleteComment uid (.valid cid) db =
          (db, .error ⟨403, "You are not authorized to delete this comment"⟩)) ∧
      (∀ (tid : Nat) (t : Tweet),
        db.tweets.find? (fun x => x._id == tid) = some t → t.owner ≠ uid →
        deleteTweet uid (.valid tid) db =
          (db, .error ⟨403, "You are not authorized to delete this tweet"⟩)) ∧
      (∀ (gw : String → Option Unit) (vid : Nat) (v : Video),
        db.videos.find? (fun x => x._id == vid) = some v → v.owner ≠ uid →
        deleteVideo gw uid (.valid vid) db =
          (db, [], .error ⟨403, "You are not authorized to delete this video"⟩)) := by
  intro db uid
  refine ⟨?_, ?_, ?_, ?_⟩
  · intro cid content c hc hfind howner
    have hcb : (content == "") = false := by simpa using hc
    have hob : (c.owner == uid) = false := by simpa using howner
    simp [updateComment, hcb, hfind, hob]
  · intro cid c hfind howner
    have hob : (c.owner == uid) = false := by simpa using howner
    simp [deleteComment, hfind, hob]
  · intro tid t hfind howner
    have hob : (t.owner == uid) = false := by simpa using howner
    simp [deleteTweet, hfind, hob]
  · intro gw vid v hfind howner
    have hob : (uid == v.owner) = false := by
      simpa using fun e => howner e.symm
    simp [deleteVideo, hfind, hob]

/-- Sample database for the C1 witness: one comment, one tweet and one video,
each owned by user 1. -/
def ownDB : DB :=
  ⟨[], [⟨0, "vf.mp4", "vpub", "th.png", "tpub", "Old title", "original description",
      5, 0, true, [], [], 1, 0⟩],
    [⟨0, "a comment", 0, 1, []⟩], [⟨0, "a tweet", 1, none, 0⟩], [], [], [], 10⟩

/-- Witness for C1 (amended): user 2 is rejected with 403 by all four
ownership-checked operations on user 1's documents. -/
theorem owner_mismatch_403_witness :
    (updateComment 2 (.valid 0) (some "new text") ownDB =
      (ownDB, .error ⟨403, "You are not authorized to update this comment"⟩)) ∧
    (deleteComment 2 (.valid 0) ownDB =
      (ownDB, .error ⟨403, "You are not authorized to delete this comment"⟩)) ∧
    (deleteTweet 2 (.valid 0) ownDB =
      (ownDB, .error ⟨403, "You are not authorized to delete this tweet"⟩)) ∧
    (deleteVideo (fun _ => some ()) 2 (.valid 0) ownDB =
      (ownDB, [], .error ⟨403, "You are not authorized to delete this video"⟩)) :=
  ⟨(owner_mismatch_403 ownDB 2).1 0 "new text" ⟨0, "a comment", 0, 1, []⟩
      (by decide) (by decide) (by decide),
    (owner_mismatch_403 ownDB 2).2.1 0 ⟨0, "a comment", 0, 1, []⟩ (by decide) (by decide),
    (owner_mismatch_403 ownDB 2).2.2.1 0 ⟨0, "a tweet", 1, none, 0⟩ (by decide) (by decide),
    (owner_mismatch_403 ownDB 2).2.2.2 (fun _ => some ()) 0
      ⟨0, "vf.mp4", "vpub", "th.png", "tpub", "Old title", "original description",
        5, 0, true, [], [], 1, 0⟩ (by decide) (by decide)⟩

/-- The stored video of the C1 counterexample, owned by user 1. -/
def c1Video : Video :=
  ⟨0, "vf.mp4", "vpub", "th.png", "tpub", "Old title", "original description",
    5, 0, true, [], [], 1, 0⟩

/-- Its database. -/
def c1DB : DB := ⟨[], [c1Video], [], [], [], [], [], 10⟩

/-- C1 counterexample: updateVideo performs no ownership check — user 2's
update of user 1's video succeeds with a 200 and rewrites the stored title,
instead of failing with 403 and leaving the document unchanged. -/
theorem updateVideo_nonowner_succeeds :
    c1Video.owner = 1 ∧ (1 : Nat) ≠ 2 ∧
    updateVideo (fun _ => none) 2 (.valid 0) (some "Hijacked") none none c1DB =
      ({ c1DB with videos := [{ c1Video with title := "Hijacked" }] },
        .ok (200, { c1Video with title := "Hijacked" })) := by
  refine ⟨rfl, by decide, by decide⟩

/- ------------------------------------------------------------------ -/
/- C3                                                                 -/
/- ------------------------------------------------------------------ -/

/-- C3: when the video's media asset has a non-empty public id and the
upstream deletion for it yields no result, deleteVideo aborts with a 500,
the database is untouched, and the video is still retrievable through
getVideoById. -/
theorem deleteVideo_gateway_failure_aborts :
    ∀ (gw : String → Option Unit) (db : DB) (uid vid : Nat) (v : Video),
      db.videos.find? (fun x => x._id == vid) = some v →
      v.owner = uid →
      v.videoPublicId ≠ "" →
      gw v.videoPublicId = none →
      deleteVideo gw uid (.valid vid) db =
        (db, [⟨v.videoPublicId, "video"⟩],
          .error ⟨500, "Failed to delete video from Cloudinary"⟩) ∧
      getVideoById (.valid vid) db =
        .ok (200, v, (db.users.find? (fun u => u._id == v.owner)).map toUserCard) := by
  intro gw db uid vid v hfind howner hpub hgw
  have hob : (uid == v.owner) = true := by simpa using howner.symm
  have hpb : (v.videoPublicId == "") = false := by simpa using hpub
  constructor
  · simp [deleteVideo, hfind, hob, deleteAssetStep, deleteFromCloudinary, hpb, hgw]
  · simp [getVideoById, hfind]

/-- Sample database for the C3 witness: a video with public id "abc" owned by
user 1, with a failing gateway. -/
def c3DB : DB :=
  ⟨[], [⟨0, "vf.mp4", "abc", "th.png", "tp", "Some title", "some description",
      5, 0, true, [], [], 1, 0⟩], [], [], [], [], [], 10⟩

/-- Witness for C3 at the concrete "abc" scenario of the spec. -/
theorem deleteVideo_gateway_failure_aborts_witness :
    deleteVideo (fun _ => none) 1 (.valid 0) c3DB =
      (c3DB, [⟨"abc", "video"⟩],
        .error ⟨500, "Failed to delete video from Cloudinary"⟩) ∧
    getVideoById (.valid 0) c3DB =
      .ok (200, ⟨0, "vf.mp4", "abc", "th.png", "tp", "Some title",
        "some description", 5, 0, true, [], [], 1, 0⟩, none) :=
  deleteVideo_gateway_failure_aborts (fun _ => none) c3DB 1 0
    ⟨0, "vf.mp4", "abc", "th.png", "tp", "Some title", "some description",
      5, 0, true, [], [], 1, 0⟩ (by decide) rfl (by decide) rfl

/- ------------------------------------------------------------------ -/
/- C9                                                                 -/
/- ------------------------------------------------------------------ -/

/-- C9: a user owning zero tweets gets a 404 from getUserTweets, while the
other listings — playlists, liked videos, channel videos — answer the empty
case with a 200 and an empty list. -/
theorem getUserTweets_empty_404_others_200 :
    ∀ (db : DB) (uid cid : Nat),
      (db.tweets.filter (fun t => t.owner == uid) = [] →
        getUserTweets (.valid uid) db = .error ⟨404, "No tweets found for this user"⟩) ∧
      (db.playlists.filter (fun p => p.owner == uid) = [] →
        getUserPlaylists (.valid uid) db = .ok (200, [], "No playlists found")) ∧
      (db.videos.filter (fun v => v.likes.contains uid) = [] →
        getLikedVideos uid db = .ok (200, [], "No liked videos found")) ∧
      (∀ ch, db.users.find? (fun u => u._id == cid) = some ch →
        db.videos.filter (fun v => v.owner == cid) = [] →
        getChannelVideos (.valid cid) db = .ok (200, [], "No videos found for this channel")) := by
  intro db uid cid
  refine ⟨?_, ?_, ?_, ?_⟩
  · intro h
    simp [getUserTweets, h, sortList]
  · intro h
    simp [getUserPlaylists, h]
  · intro h
    simp only [getLikedVideos, h]
    rfl
  · intro ch hch h
    simp [getChannelVideos, hch, h, sortList]

/-- Sample database for the C9 witness: one channel user (id 3) and nothing
else; user 7 owns no tweets, playlists or liked videos. -/
def c9DB : DB := ⟨[⟨3, "chan", "Chan Nel", "av.png"⟩], [], [], [], [], [], [], 0⟩

/-- Witness for C9 at the concrete empty database. -/
theorem getUserTweets_empty_404_others_200_witness :
    getUserTweets (.valid 7) c9DB = .error ⟨404, "No tweets found for this user"⟩ ∧
    getUserPlaylists (.valid 7) c9DB = .ok (200, [], "No playlists found") ∧
    getLikedVideos 7 c9DB = .ok (200, [], "No liked videos found") ∧
    getChannelVideos (.valid 3) c9DB = .ok (200, [], "No videos found for this channel") :=
  ⟨(getUserTweets_empty_404_others_200 c9DB 7 3).1 (by decide),
    (getUserTweets_empty_404_others_200 c9DB 7 3).2.1 (by decide),
    (getUserTweets_empty_404_others_200 c9DB 7 3).2.2.1 (by decide),
    (getUserTweets_empty_404_others_200 c9DB 7 3).2.2.2 ⟨3, "chan", "Chan Nel", "av.png"⟩
      (by decide) (by decide)⟩

/- ------------------------------------------------------------------ -/
/- C10                                                                -/
/- ------------------------------------------------------------------ -/

theorem deleteAssetStep_calls :
    ∀ (gw : String → Option Unit) (pid : String) (c : CloudCall),
      c ∈ (deleteAssetStep gw pid).2 → c.resourceType = "video" := by
  intro gw pid c hc
  by_cases hp : (pid == "") = true
  · simp [deleteAssetStep, hp] at hc
  · have hp' : (pid == "") = false := by simpa [Bool.not_eq_true] using hp
    cases hg : gw pid <;>
      · simp [deleteAssetStep, deleteFromCloudinary, hp', hg] at hc
        subst hc
        rfl

/-- C10: every Cloudinary destroy call that deleteVideo makes — including the
one for the thumbnail public id — passes resource_type "video"; with a
succeeding gateway and non-empty public ids the calls are exactly the video
asset followed by the thumbnail, both video-kind, so the image-kind deletion
is never used. -/
theorem deleteVideo_thumbnail_uses_video_kind :
    (∀ (gw : String → Option Unit) (uid : Nat) (p : Param) (db : DB) (c : CloudCall),
        c ∈ (deleteVideo gw uid p db).2.1 → c.resourceType = "video") ∧
    (∀ (gw : String → Option Unit) (db : DB) (uid vid : Nat) (v : Video),
        db.videos.find? (fun x => x._id == vid) = some v →
        v.owner = uid → v.videoPublicId ≠ "" → v.thumbnailPublicId ≠ "" →
        gw v.videoPublicId = some () → gw v.thumbnailPublicId = some () →
        (deleteVideo gw uid (.valid vid) db).2.1 =
          [⟨v.videoPublicId, "video"⟩, ⟨v.thumbnailPublicId, "video"⟩]) := by
  constructor
  · intro gw uid p db c hc
    match p with
    | .missing => simp [deleteVideo] at hc
    | .malformed => simp [deleteVideo] at hc
    | .valid vid =>
      cases hf : db.videos.find? (fun x => x._id == vid) with
      | none => simp [deleteVideo, hf] at hc
      | some v =>
        by_cases ho : (uid == v.owner) = true
        · rcases h1 : deleteAssetStep gw v.videoPublicId with ⟨b1, c1⟩
          cases b1 with
          | false =>
            simp [deleteVideo, hf, ho, h1] at hc
            exact deleteAssetStep_calls gw v.videoPublicId c (by rw [h1]; exact hc)
          | true =>
            rcases h2 : deleteAssetStep gw v.thumbnailPublicId with ⟨b2, c2⟩
            cases b2 with
            | false =>
              simp [deleteVideo, hf, ho, h1, h2] at hc
              rcases hc with hc | hc
              · exact deleteAssetStep_calls gw v.videoPublicId c (by simp [h1, hc])
              · exact deleteAssetStep_calls gw v.thumbnailPublicId c (by simp [h2, hc])
            | true =>
              simp [deleteVideo, hf, ho, h1, h2] at hc
              rcases hc with hc | hc
              · exact deleteAssetStep_calls gw v.videoPublicId c (by simp [h1, hc])
              · exact deleteAssetStep_calls gw v.thumbnailPublicId c (by simp [h2, hc])
        · have ho' : (uid == v.owner) = false := by simpa [Bool.not_eq_true] using ho
          simp [deleteVideo, hf, ho'] at hc
  · intro gw db uid vid v hfind howner hvp htp hgv hgt
    have hob : (uid == v.owner) = true := by simpa using howner.symm
    have hvpb : (v.videoPublicId == "") = false := by simpa using hvp
    have htpb : (v.thumbnailPublicId == "") = false := by simpa using htp
    simp [deleteVideo, hfind, hob, deleteAssetStep, deleteFromCloudinary,
      hvpb, htpb, hgv, hgt]

/-- Sample database for the C10 witness. -/
def c10DB : DB :=
  ⟨[], [⟨0, "vf.mp4", "vpub", "th.png", "tpub", "Some title", "some description",
      5, 0, true, [], [], 1, 0⟩], [], [], [], [], [], 10⟩

/-- Witness for C10: on the concrete database the destroy trace is the video
asset then the thumbnail, both with resource_type "video". -/
theorem deleteVideo_thumbnail_uses_video_kind_witness :
    ((⟨"vpub", "video"⟩ : CloudCall) ∈
        (deleteVideo (fun _ => some ()) 1 (.valid 0) c10DB).2.1 →
      (⟨"vpub", "video"⟩ : CloudCall).resourceType = "video") ∧
    (deleteVideo (fun _ => some ()) 1 (.valid 0) c10DB).2.1 =
      [⟨"vpub", "video"⟩, ⟨"tpub", "video"⟩] :=
  ⟨fun hm => deleteVideo_thumbnail_uses_video_kind.1 (fun _ => some ()) 1 (.valid 0) c10DB
      ⟨"vpub", "video"⟩ hm,
    deleteVideo_thumbnail_uses_video_kind.2 (fun _ => some ()) c10DB 1 0
      ⟨0, "vf.mp4", "vpub", "th.png", "tpub", "Some title", "some description",
        5, 0, true, [], [], 1, 0⟩ (by decide) rfl (by decide) (by decide) rfl rfl⟩

/- ------------------------------------------------------------------ -/
/- C6                                                                 -/
/- ------------------------------------------------------------------ -/

/-- C6: with well-formed uploads, a 3-character title together with a
10-character description passes the boundary validators and the video is
stored, while a 2-character title fails schema validation with the (spec
section 7) 400 status and nothing is stored. -/
theorem publishAVideo_title_boundaries :
    ∀ (db : DB) (upload : String → Option UploadResult) (uid dur : Nat)
      (t d t2 : String) (vp tp : String) (vres tres : UploadResult),
      upload vp = some vres → upload tp = some tres →
      vres.url ≠ "" → vres.public_id ≠ "" → tres.url ≠ "" → tres.public_id ≠ "" →
      dur ≠ 0 → t.length = 3 → d.length = 10 → t2.length = 2 →
      validationErrorStatus = 400 ∧
      (∃ v, publishAVideo upload uid (some t) (some d) (some dur) (some vp) (some tp) db =
          ({ db with videos := db.videos ++ [v], nextId := db.nextId + 1 }, .ok (201, v)) ∧
        v.title = t ∧ v.description = d ∧
        v ∈ (publishAVideo upload uid (some t) (some d) (some dur) (some vp) (some tp) db).1.videos) ∧
      publishAVideo upload uid (some t2) (some d) (some dur) (some vp) (some tp) db =
        (db, .error ⟨validationErrorStatus, "Video validation failed"⟩) := by
  intro db upload uid dur t d t2 vp tp vres tres hv ht hu1 hu2 hu3 hu4 hdur hlt hld hlt2
  have htne : t ≠ "" := by
    intro e
    rw [e] at hlt
    simp at hlt
  have ht2ne : t2 ≠ "" := by
    intro e
    rw [e] at hlt2
    simp at hlt2
  have hdne : d ≠ "" := by
    intro e
    rw [e] at hld
    simp at hld
  refine ⟨rfl, ?_, ?_⟩
  · refine ⟨⟨db.nextId, vres.url, vres.public_id, tres.url, tres.public_id,
      t, d, dur, 0, true, [], [], uid, 0⟩, ?_, rfl, rfl, ?_⟩
    · have hvalid : videoSchemaValid
          ⟨db.nextId, vres.url, vres.public_id, tres.url, tres.public_id,
            t, d, dur, 0, true, [], [], uid, 0⟩ = true := by
        simp [videoSchemaValid, hu1, hu2, hu3, hu4, hlt, hld]
      simp [publishAVideo, truthyS, truthyN, htne, hdne, hdur, hv, ht, hvalid]
    · have hvalid : videoSchemaValid
          ⟨db.nextId, vres.url, vres.public_id, tres.url, tres.public_id,
            t, d, dur, 0, true, [], [], uid, 0⟩ = true := by
        simp [videoSchemaValid, hu1, hu2, hu3, hu4, hlt, hld]
      simp [publishAVideo, truthyS, truthyN, htne, hdne, hdur, hv, ht, hvalid]
  · have hinvalid : videoSchemaValid
        ⟨db.nextId, vres.url, vres.public_id, tres.url, tres.public_id,
          t2, d, dur, 0, true, [], [], uid, 0⟩ = false := by
      simp [videoSchemaValid, hlt2]
    simp [publishAVideo, truthyS, truthyN, ht2ne, hdne, hdur, hv, ht, hinvalid]

/-- Witness for C6 with the concrete boundary strings "abc" / "abcdefghij"
and the 2-character "ab". -/
theorem publishAVideo_title_boundaries_witness :
    validationErrorStatus = 400 ∧
    (∃ v, publishAVideo (fun _ => some ⟨"http-url", "pub-id"⟩) 1 (some "abc")
        (some "abcdefghij") (some 5) (some "v.mp4") (some "t.png") emptyDB =
        ({ emptyDB with videos := emptyDB.videos ++ [v], nextId := emptyDB.nextId + 1 },
          .ok (201, v)) ∧
      v.title = "abc" ∧ v.description = "abcdefghij" ∧
      v ∈ (publishAVideo (fun _ => some ⟨"http-url", "pub-id"⟩) 1 (some "abc")
        (some "abcdefghij") (some 5) (some "v.mp4") (some "t.png") emptyDB).1.videos) ∧
    publishAVideo (fun _ => some ⟨"http-url", "pub-id"⟩) 1 (some "ab")
        (some "abcdefghij") (some 5) (some "v.mp4") (some "t.png") emptyDB =
      (emptyDB, .error ⟨validationErrorStatus, "Video validation failed"⟩) :=
  publishAVideo_title_boundaries emptyDB (fun _ => some ⟨"http-url", "pub-id"⟩) 1 5
    "abc" "abcdefghij" "ab" "v.mp4" "t.png" ⟨"http-url", "pub-id"⟩ ⟨"http-url", "pub-id"⟩
    rfl rfl (by decide) (by decide) (by decide) (by decide) (by decide)
    (by decide) (by decide) (by decide)

/- ------------------------------------------------------------------ -/
/- C5                                                                 -/
/- ------------------------------------------------------------------ -/

/-- C5: against an existing channel (and the database invariant that stored
subscription ids are distinct), toggleSubscription creates exactly one
subscription for the pair when none exists, deletes one and creates nothing
when one exists, and therefore preserves "at most one subscription per
(subscriber, channel) pair" under sequential use. -/
theorem toggleSubscription_no_duplicates :
    ∀ (db : DB) (uid cid : Nat) (ch : User),
      db.users.find? (fun u => u._id == cid) = some ch →
      (db.subscriptions.map (fun s => s._id)).Nodup →
      (subsFor db uid cid = [] →
        subsFor (toggleSubscription uid (.valid cid) db).1 uid cid = [⟨db.nextId, uid, cid⟩] ∧
        (toggleSubscription uid (.valid cid) db).1.subscriptions.length =
          db.subscriptions.length + 1 ∧
        (toggleSubscription uid (.valid cid) db).2 = .ok (201, some ⟨db.nextId, uid, cid⟩)) ∧
      (subsFor db uid cid ≠ [] →
        (subsFor (toggleSubscription uid (.valid cid) db).1 uid cid).length =
          (subsFor db uid cid).length - 1 ∧
        (toggleSubscription uid (.valid cid) db).1.subscriptions.length =
          db.subscriptions.length - 1 ∧
        (toggleSubscription uid (.valid cid) db).2 = .ok (200, none)) ∧
      ((subsFor db uid cid).length ≤ 1 →
        (subsFor (toggleSubscription uid (.valid cid) db).1 uid cid).length ≤ 1) := by
  intro db uid cid ch hch hids
  cases hfq : db.subscriptions.find? (fun s => s.subscriber == uid && s.channel == cid) with
  | none =>
    have hnil : subsFor db uid cid = [] := by
      unfold subsFor
      exact List.filter_eq_nil_iff.mpr (by simpa using List.find?_eq_none.mp hfq)
    have htog : toggleSubscription uid (.valid cid) db =
        ({ db with subscriptions := db.subscriptions ++ [⟨db.nextId, uid, cid⟩],
                   nextId := db.nextId + 1 },
          .ok (201, some ⟨db.nextId, uid, cid⟩)) := by
      simp [toggleSubscription, hch, hfq]
    have hafter : subsFor (toggleSubscription uid (.valid cid) db).1 uid cid =
        [⟨db.nextId, uid, cid⟩] := by
      rw [htog]
      unfold subsFor
      simp only [List.filter_append]
      rw [show (db.subscriptions.filter (fun s => s.subscriber == uid && s.channel == cid)) =
        [] from hnil]
      simp
    refine ⟨fun _ => ⟨hafter, ?_, by rw [htog]⟩, fun hne => absurd hnil hne, fun _ => ?_⟩
    · rw [htog]
      simp
    · rw [hafter]
      simp
  | some ex =>
    have hq : (ex.subscriber == uid && ex.channel == cid) = true := by
      have h0 := List.find?_some hfq
      simpa using h0
    have hmem : ex ∈ db.subscriptions := List.mem_of_find?_eq_some hfq
    have hexin : ex ∈ subsFor db uid cid := List.mem_filter.mpr ⟨hmem, hq⟩
    have hnonnil : subsFor db uid cid ≠ [] := List.ne_nil_of_mem hexin
    obtain ⟨a, l1, l2, hl1, hpa, hsplit, herase⟩ :=
      List.exists_of_eraseP (p := fun s => s._id == ex._id) hmem (by simp)
    have hain : a ∈ db.subscriptions := by
      rw [hsplit]
      exact List.mem_append.mpr (Or.inr (List.mem_cons_self a l2))
    have haex : a = ex :=
      List.inj_on_of_nodup_map hids hain hmem (by simpa using hpa)
    rw [haex] at hsplit
    have htog : toggleSubscription uid (.valid cid) db =
        ({ db with subscriptions := db.subscriptions.eraseP (fun s => s._id == ex._id) },
          .ok (200, none)) := by
      simp [toggleSubscription, hch, hfq]
    have hbefore : subsFor db uid cid =
        l1.filter (fun s => s.subscriber == uid && s.channel == cid) ++
          ex :: l2.filter (fun s => s.subscriber == uid && s.channel == cid) := by
      unfold subsFor
      rw [hsplit]
      simp [List.filter_append, List.filter_cons, hq]
    have hafter : subsFor (toggleSubscription uid (.valid cid) db).1 uid cid =
        l1.filter (fun s => s.subscriber == uid && s.channel == cid) ++
          l2.filter (fun s => s.subscriber == uid && s.channel == cid) := by
      rw [htog]
      unfold subsFor
      simp only
      rw [herase]
      exact List.filter_append _ _
    refine ⟨fun hnilc => absurd hnilc hnonnil, fun _ => ⟨?_, ?_, by rw [htog]⟩, fun hle => ?_⟩
    · rw [hafter, hbefore]
      simp
    · rw [htog]
      simp only
      rw [herase, hsplit]
      simp
    · have h1 : (subsFor db uid cid).length =
          (subsFor (toggleSubscription uid (.valid cid) db).1 uid cid).length + 1 := by
        rw [hafter, hbefore]
        simp
        omega
      omega

/-- Sample database for the C5 witness: channel user 3 with an existing
subscription of user 7. -/
def c5DB : DB := ⟨[⟨3, "chan", "Chan Nel", "a.png"⟩], [], [], [], [], [],
  [⟨5, 7, 3⟩], 10⟩

/-- Witness for C5: toggling the existing (7, 3) subscription removes it and
keeps the pair at most once. -/
theorem toggleSubscription_no_duplicates_witness :
    ((subsFor (toggleSubscription 7 (.valid 3) c5DB).1 7 3).length =
        (subsFor c5DB 7 3).length - 1 ∧
      (toggleSubscription 7 (.valid 3) c5DB).1.subscriptions.length =
        c5DB.subscriptions.length - 1 ∧
      (toggleSubscription 7 (.valid 3) c5DB).2 = .ok (200, none)) ∧
    (subsFor (toggleSubscription 7 (.valid 3) c5DB).1 7 3).length ≤ 1 :=
  ⟨(toggleSubscription_no_duplicates c5DB 7 3 ⟨3, "chan", "Chan Nel", "a.png"⟩
      (by decide) (by decide)).2.1 (by decide),
    (toggleSubscription_no_duplicates c5DB 7 3 ⟨3, "chan", "Chan Nel", "a.png"⟩
      (by decide) (by decide)).2.2 (by decide)⟩

/- ------------------------------------------------------------------ -/
/- C2                                                                 -/
/- ------------------------------------------------------------------ -/

/-- The video of the C2 counterexample: user 1 appears twice in the
denormalized likes array (the duplicate state the race of spec section 5 can
produce). -/
def c2Video : Video :=
  ⟨0, "vf.mp4", "vp", "th.png", "tp", "A title", "a description",
    5, 0, true, [1, 1], [], 9, 0⟩

/-- Its database: two Like documents for (user 1, video 0), so the lengths
that the claim assumes equal are equal (2 = 2). -/
def c2DB : DB :=
  ⟨[], [c2Video], [], [],
    [⟨20, 1, some 0, none, none⟩, ⟨21, 1, some 0, none, none⟩], [], [], 30⟩

/-- C2 counterexample: with the claim's precondition satisfied (array length
2 = Like count 2), one toggle empties the array (length 0) while one Like
document remains (count 1), and the second toggle yields [1] — not the
original [1, 1] array. -/
theorem toggleVideoLike_length_precondition_insufficient :
    c2Video.likes.length = (likeDocsFor c2DB 0).length ∧
    (toggleVideoLike 1 (.valid 0) c2DB).1.videos.find? (fun v => v._id == 0) =
      some { c2Video with likes := [] } ∧
    (likeDocsFor (toggleVideoLike 1 (.valid 0) c2DB).1 0).length = 1 ∧
    ([] : List Nat).length ≠ 1 ∧
    (toggleVideoLike 1 (.valid 0) (toggleVideoLike 1 (.valid 0) c2DB).1).1.videos.find?
      (fun v => v._id == 0) = some { c2Video with likes := [1] } ∧
    ([1] : List Nat) ≠ c2Video.likes := by
  refine ⟨rfl, by decide, by decide, by decide, by decide, by decide⟩

/-- Consistency of a video's denormalized likes array with the authoritative
Like documents: same multiset of users, and no duplicate users in the
array. -/
def likesConsistent (db : DB) (vid : Nat) (likes : List Nat) : Prop :=
  ((likeDocsFor db vid).map (fun d => d.likedBy)).Perm likes ∧ likes.Nodup

theorem find?_after_save :
    ∀ (db : DB) (v1 : Video) (vid : Nat) (a : Video),
      v1._id = vid →
      db.videos.find? (fun x => x._id == vid) = some a →
      (saveVideo db v1).videos.find? (fun x => x._id == vid) = some v1 := by
  intro db v1 vid a h1 ha
  unfold saveVideo
  simp only
  have h2 := find?_map_if (fun x => x._id == vid) v1 (by simp [h1]) db.videos a ha
  rw [h1]
  exact h2

theorem erase_like_doc_perm :
    ∀ (L : List LikeDoc) (vid uid : Nat) (likes : List Nat),
      ((L.filter (fun d => d.video == some vid)).map (fun d => d.likedBy)).Perm likes →
      likes.Nodup → uid ∈ likes →
      (((L.eraseP (fun d => d.likedBy == uid && d.video == some vid)).filter
          (fun d => d.video == some vid)).map (fun d => d.likedBy)).Perm
        (likes.filter (fun w => w != uid)) := by
  intro L vid uid likes hperm hnd hmem
  have huidmap : uid ∈ (L.filter (fun d => d.video == some vid)).map (fun d => d.likedBy) :=
    (hperm.mem_iff).mpr hmem
  obtain ⟨dd, hdd, hddeq⟩ := List.mem_map.mp huidmap
  have hddf := List.mem_filter.mp hdd
  have hdp : (dd.likedBy == uid && dd.video == some vid) = true := by
    simp [hddeq, hddf.2]
  obtain ⟨a, L1, L2, hL1, hpa, hsplit, herase⟩ :=
    List.exists_of_eraseP (p := fun d => d.likedBy == uid && d.video == some vid) hddf.1 hdp
  have hpa2 := hpa
  simp at hpa2
  obtain ⟨hal', hav'⟩ := hpa2
  rw [herase]
  have hdocs : ((L.filter (fun d => d.video == some vid)).map (fun d => d.likedBy)) =
      ((L1.filter (fun d => d.video == some vid)).map (fun d => d.likedBy)) ++
        uid :: ((L2.filter (fun d => d.video == some vid)).map (fun d => d.likedBy)) := by
    rw [hsplit]
    simp [List.filter_append, List.filter_cons, hav', hal']
  rw [hdocs] at hperm
  have hlikes : likes.Perm (uid ::
      (((L1.filter (fun d => d.video == some vid)).map (fun d => d.likedBy)) ++
        ((L2.filter (fun d => d.video == some vid)).map (fun d => d.likedBy)))) :=
    hperm.symm.trans List.perm_middle
  have hndc := (hlikes.nodup_iff).mp hnd
  rcases List.nodup_cons.mp hndc with ⟨hnotmem, -⟩
  have hfil := hlikes.filter (fun w => w != uid)
  rw [List.filter_cons] at hfil
  simp only [bne_self_eq_false] at hfil
  rw [if_neg (by simp), filter_bne_eq_self hnotmem] at hfil
  have hgoal_eq : (((L1 ++ L2).filter (fun d => d.video == some vid)).map
      (fun d => d.likedBy)) =
      ((L1.filter (fun d => d.video == some vid)).map (fun d => d.likedBy)) ++
        ((L2.filter (fun d => d.video == some vid)).map (fun d => d.likedBy)) := by
    simp [List.filter_append]
  rw [hgoal_eq]
  exact hfil.symm

theorem append_like_doc_perm :
    ∀ (L : List LikeDoc) (vid uid nid : Nat) (likes : List Nat),
      ((L.filter (fun d => d.video == some vid)).map (fun d => d.likedBy)).Perm likes →
      (((L ++ [(⟨nid, uid, some vid, none, none⟩ : LikeDoc)]).filter
          (fun d => d.video == some vid)).map (fun d => d.likedBy)).Perm
        (likes ++ [uid]) := by
  intro L vid uid nid likes hperm
  have h1 : (List.filter (fun (d : LikeDoc) => d.video == some vid)
      [(⟨nid, uid, some vid, none, none⟩ : LikeDoc)]).map
        (fun (d : LikeDoc) => d.likedBy) = [uid] := by
    simp
  rw [List.filter_append, List.map_append, h1]
  exact List.Perm.append_right [uid] hperm

theorem toggleVideoLike_step :
    ∀ (db : DB) (uid vid : Nat) (v : Video),
      db.videos.find? (fun x => x._id == vid) = some v →
      likesConsistent db vid v.likes →
      ∃ db1 v1,
        toggleVideoLike uid (.valid vid) db =
          (db1, .ok (200, ⟨vid, (likeDocsFor db1 vid).length, !(v.likes.contains uid)⟩)) ∧
        db1.videos.find? (fun x => x._id == vid) = some v1 ∧
        likesConsistent db1 vid v1.likes ∧
        v1.likes = (if v.likes.contains uid then v.likes.filter (fun w => w != uid)
          else v.likes ++ [uid]) ∧
        v1.likes.contains uid = !(v.likes.contains uid) := by
  intro db uid vid v hfind hcons
  obtain ⟨hperm, hnd⟩ := hcons
  have hvid : v._id = vid := by
    have h0 := List.find?_some hfind
    simpa using h0
  cases halready : v.likes.contains uid with
  | true =>
    have hmem : uid ∈ v.likes := list_contains_iff.mp halready
    refine ⟨saveVideo { db with likes := db.likes.eraseP (fun d => d.likedBy == uid && d.video == some vid) } { v with likes := v.likes.filter (fun w => w != uid) }, { v with likes := v.likes.filter (fun w => w != uid) }, ?_, ?_, ?_, ?_, ?_⟩
    · simp [toggleVideoLike, hfind, halready, hmem]
    · exact find?_after_save _ _ _ v (by simp [hvid]) hfind
    · exact ⟨erase_like_doc_perm db.likes vid uid v.likes hperm hnd hmem, hnd.filter _⟩
    · simp [halready]
    · have hcf : (v.likes.filter (fun w => w != uid)).contains uid = false := by
        refine Bool.eq_false_iff.mpr (fun hcc => ?_)
        exact not_mem_filter_bne v.likes uid (list_contains_iff.mp hcc)
      exact hcf
  | false =>
    have hnotmem : uid ∉ v.likes := by
      intro hm
      have h := list_contains_iff.mpr hm
      rw [halready] at h
      exact Bool.noConfusion h
    refine ⟨saveVideo { db with likes := db.likes ++ [⟨db.nextId, uid, some vid, none, none⟩], nextId := db.nextId + 1 } { v with likes := v.likes ++ [uid] }, { v with likes := v.likes ++ [uid] }, ?_, ?_, ?_, ?_, ?_⟩
    · simp [toggleVideoLike, hfind, halready, hnotmem]
    · exact find?_after_save _ _ _ v (by simp [hvid]) hfind
    · refine ⟨append_like_doc_perm db.likes vid uid db.nextId v.likes hperm, ?_⟩
      have hpp : (v.likes ++ [uid]).Perm (uid :: v.likes) :=
        List.perm_append_singleton uid v.likes
      exact (hpp.nodup_iff).mpr (List.nodup_cons.mpr ⟨hnotmem, hnd⟩)
    · simp [halready]
    · have hin : uid ∈ v.likes ++ [uid] := List.mem_append.mpr (Or.inr (by simp))
      simp [halready, list_contains_iff.mpr hin]

/-- C2 (amended): assume the denormalized likes array and the authoritative
Like documents genuinely agree for the video — same multiset of users and no
duplicate array entries — rather than merely having equal lengths.  Then each
single toggle keeps the array length equal to the Like-document count, and
two sequential toggles restore the user's liked/unliked state, restore the
likes array up to permutation, and restore the Like-document count. -/
theorem toggleVideoLike_consistent_roundtrip :
    ∀ (db : DB) (uid vid : Nat) (v : Video),
      db.videos.find? (fun x => x._id == vid) = some v →
      likesConsistent db vid v.likes →
      ∃ db1 v1 db2 v2,
        toggleVideoLike uid (.valid vid) db =
          (db1, .ok (200, ⟨vid, (likeDocsFor db1 vid).length, !(v.likes.contains uid)⟩)) ∧
        db1.videos.find? (fun x => x._id == vid) = some v1 ∧
        v1.likes.length = (likeDocsFor db1 vid).length ∧
        v1.likes.contains uid = !(v.likes.contains uid) ∧
        toggleVideoLike uid (.valid vid) db1 =
          (db2, .ok (200, ⟨vid, (likeDocsFor db2 vid).length, v.likes.contains uid⟩)) ∧
        db2.videos.find? (fun x => x._id == vid) = some v2 ∧
        v2.likes.length = (likeDocsFor db2 vid).length ∧
        v2.likes.contains uid = v.likes.contains uid ∧
        v2.likes.Perm v.likes ∧
        (likeDocsFor db2 vid).length = (likeDocsFor db vid).length := by
  intro db uid vid v hfind hcons
  obtain ⟨db1, v1, htog1, hfind1, hcons1, hlikes1, hcont1⟩ :=
    toggleVideoLike_step db uid vid v hfind hcons
  obtain ⟨db2, v2, htog2, hfind2, hcons2, hlikes2, hcont2⟩ :=
    toggleVideoLike_step db1 uid vid v1 hfind1 hcons1
  have hlen1 : v1.likes.length = (likeDocsFor db1 vid).length := by
    have h := hcons1.1.length_eq
    rw [List.length_map] at h
    exact h.symm
  have hlen2 : v2.likes.length = (likeDocsFor db2 vid).length := by
    have h := hcons2.1.length_eq
    rw [List.length_map] at h
    exact h.symm
  rw [hcont1, Bool.not_not] at htog2 hcont2
  have hpermv2 : v2.likes.Perm v.likes := by
    cases halready : v.likes.contains uid with
    | true =>
      have hmem := list_contains_iff.mp halready
      rw [halready] at hlikes1
      simp at hlikes1
      have hcont1' : v1.likes.contains uid = false := by rw [hcont1, halready]; rfl
      rw [hcont1'] at hlikes2
      simp at hlikes2
      rw [hlikes2, hlikes1]
      exact (List.perm_append_singleton uid _).trans (cons_filter_bne_perm hcons.2 hmem)
    | false =>
      have hnotmem : uid ∉ v.likes := by
        intro hm
        have h := list_contains_iff.mpr hm
        rw [halready] at h
        exact Bool.noConfusion h
      rw [halready] at hlikes1
      simp at hlikes1
      have hcont1' : v1.likes.contains uid = true := by rw [hcont1, halready]; rfl
      rw [hcont1'] at hlikes2
      simp at hlikes2
      rw [hlikes2, hlikes1]
      rw [List.filter_append, filter_bne_eq_self hnotmem]
      simp
  have hcount : (likeDocsFor db2 vid).length = (likeDocsFor db vid).length := by
    have h0 := hcons.1.length_eq
    rw [List.length_map] at h0
    rw [← hlen2]
    rw [hpermv2.length_eq, h0]
  exact ⟨db1, v1, db2, v2, htog1, hfind1, hlen1, hcont1, htog2, hfind2,
    hlen2, hcont2, hpermv2, hcount⟩

/-- Sample database for the C2 witness: video 0 liked (consistently) by user
2; user 1 toggles twice. -/
def c2wDB : DB :=
  ⟨[], [⟨0, "vf.mp4", "vp", "th.png", "tp", "A title", "a description",
      5, 0, true, [2], [], 9, 0⟩], [], [],
    [⟨20, 2, some 0, none, none⟩], [], [], 30⟩

/-- Witness for C2 (amended) at the concrete consistent database. -/
theorem toggleVideoLike_consistent_roundtrip_witness :
    ∃ db1 v1 db2 v2,
      toggleVideoLike 1 (.valid 0) c2wDB =
        (db1, .ok (200, ⟨0, (likeDocsFor db1 0).length,
          !((⟨0, "vf.mp4", "vp", "th.png", "tp", "A title", "a description",
            5, 0, true, [2], [], 9, 0⟩ : Video).likes.contains 1)⟩)) ∧
      db1.videos.find? (fun x => x._id == 0) = some v1 ∧
      v1.likes.length = (likeDocsFor db1 0).length ∧
      v1.likes.contains 1 = !((⟨0, "vf.mp4", "vp", "th.png", "tp", "A title",
        "a description", 5, 0, true, [2], [], 9, 0⟩ : Video).likes.contains 1) ∧
      toggleVideoLike 1 (.valid 0) db1 =
        (db2, .ok (200, ⟨0, (likeDocsFor db2 0).length,
          (⟨0, "vf.mp4", "vp", "th.png", "tp", "A title", "a description",
            5, 0, true, [2], [], 9, 0⟩ : Video).likes.contains 1⟩)) ∧
      db2.videos.find? (fun x => x._id == 0) = some v2 ∧
      v2.likes.length = (likeDocsFor db2 0).length ∧
      v2.likes.contains 1 = (⟨0, "vf.mp4", "vp", "th.png", "tp", "A title",
        "a description", 5, 0, true, [2], [], 9, 0⟩ : Video).likes.contains 1 ∧
      v2.likes.Perm (⟨0, "vf.mp4", "vp", "th.png", "tp", "A title",
        "a description", 5, 0, true, [2], [], 9, 0⟩ : Video).likes ∧
      (likeDocsFor db2 0).length = (likeDocsFor c2wDB 0).length :=
  toggleVideoLike_consistent_roundtrip c2wDB 1 0
    ⟨0, "vf.mp4", "vp", "th.png", "tp", "A title", "a description",
      5, 0, true, [2], [], 9, 0⟩ (by decide) ⟨by decide, by decide⟩
